import Mathlib

/-!
# Verification of the tradeai risk-and-decision pipeline

Shallow embedding, in Lean 4, of the core modules of the `tradeai`
repository (`backend/derivatives_calculator.py`, `backend/regime_classifier.py`,
`backend/circuit_breaker.py`, `backend/risk_engine.py`,
`backend/trade_ticket.py`, `backend/db.py`), together with theorems that
settle the frozen specification claims about those modules.

Conventions of the embedding:
* Python floats are embedded as `ℚ` where the code only adds, compares and
  divides (risk engine, circuit breaker, regime classifier), and as `ℝ`
  where transcendental functions appear (Black-Scholes pricing).
* Python dictionaries with fixed key sets become structures.
* Python exceptions become `Except` results.
* External collaborators performing I/O (yfinance downloads, the wall
  clock, ISO-8601 date parsing from the standard library) are abstracted
  as explicit function parameters; theorems quantify over them.
* Human-readable reason strings built with `f`-string float formatting are
  embedded as tags of an inductive type (one constructor per distinct
  reason site), since the claims only concern which reasons fire.
-/

namespace Tradeai

/-! ## RegimeClassifier._determine_risk_appetite
(`backend/regime_classifier.py`, lines 259-292)

The Python method receives the sub-signal dicts `vol`, `corr`, `gamma`,
`macro` and reads `vol['regime']`, `corr['regime']`,
`gamma['gamma_direction']`, `macro['elevated']`; the embedding takes those
four fields directly. -/

/-- Embedding of `RegimeClassifier._determine_risk_appetite`: sequential
`if`/`elif` accumulation of `risk_off_signals` / `risk_on_signals`, then the
threshold test, exactly as in the source. -/
def determineRiskAppetite (volRegime corrRegime gammaDirection : String)
    (macroElevated : Bool) : String :=
  let counts0 : ℕ × ℕ := (0, 0)
  let counts1 :=
    if volRegime = "stressed" then (counts0.1 + 2, counts0.2)
    else if volRegime = "compressed" then (counts0.1, counts0.2 + 2)
    else counts0
  let counts2 :=
    if corrRegime = "high" then (counts1.1 + 1, counts1.2)
    else if corrRegime = "low" then (counts1.1, counts1.2 + 1)
    else counts1
  let counts3 :=
    if gammaDirection = "negative" then (counts2.1 + 1, counts2.2)
    else if gammaDirection = "positive" then (counts2.1, counts2.2 + 1)
    else counts2
  let counts4 :=
    if macroElevated then (counts3.1 + 1, counts3.2) else counts3
  if counts4.1 ≥ 3 then "risk_off"
  else if counts4.2 ≥ 3 then "risk_on"
  else "neutral"

/-- The weighted-count rule exactly as the specification words it: a
risk-off tally and a risk-on tally, each the sum of independent
contributions, compared against the threshold 3. -/
def riskAppetiteSpecRule (volRegime corrRegime gammaDirection : String)
    (macroElevated : Bool) : String :=
  let riskOffTally : ℕ :=
    (if volRegime = "stressed" then 2 else 0)
    + (if corrRegime = "high" then 1 else 0)
    + (if gammaDirection = "negative" then 1 else 0)
    + (if macroElevated then 1 else 0)
  let riskOnTally : ℕ :=
    (if volRegime = "compressed" then 2 else 0)
    + (if corrRegime = "low" then 1 else 0)
    + (if gammaDirection = "positive" then 1 else 0)
  if riskOffTally ≥ 3 then "risk_off"
  else if riskOnTally ≥ 3 then "risk_on"
  else "neutral"

/-! ## CircuitBreaker (`backend/circuit_breaker.py`) -/

/-- Embedding of the `CircuitBreaker` instance state: the four thresholds
set in `__init__`. -/
structure CircuitBreaker where
  weekly_drawdown_pct : ℚ
  vix_percentile_limit : ℚ
  vix_spike_pct : ℚ
  macro_blackout_days : ℤ

/-- `CircuitBreaker` default thresholds (class constants). -/
def CircuitBreaker.defaults : CircuitBreaker :=
  { weekly_drawdown_pct := 5
    vix_percentile_limit := 80
    vix_spike_pct := 20
    macro_blackout_days := 1 }

/-- Embedding of `CircuitBreaker.__init__`: each `None` argument falls back
to the class default. -/
def CircuitBreaker.init (weekly_drawdown_pct vix_percentile_limit
    vix_spike_pct : Option ℚ) (macro_blackout_days : Option ℤ) :
    CircuitBreaker :=
  { weekly_drawdown_pct :=
      weekly_drawdown_pct.getD CircuitBreaker.defaults.weekly_drawdown_pct
    vix_percentile_limit :=
      vix_percentile_limit.getD CircuitBreaker.defaults.vix_percentile_limit
    vix_spike_pct := vix_spike_pct.getD CircuitBreaker.defaults.vix_spike_pct
    macro_blackout_days :=
      macro_blackout_days.getD CircuitBreaker.defaults.macro_blackout_days }

/-- A calendar event as consumed by `check_macro_proximity`: only the
`'date'` field is read, via `event.get('date', '')`; `none` models an
event dict without a `'date'` key. -/
structure CalEvent where
  date : Option String

/-- Embedding of `CircuitBreaker.check_weekly_drawdown`: blocked iff
`weekly_pnl_pct < -self.weekly_drawdown_pct` (strict). -/
def CircuitBreaker.check_weekly_drawdown (cb : CircuitBreaker)
    (weekly_pnl_pct : ℚ) : Bool :=
  weekly_pnl_pct < -cb.weekly_drawdown_pct

/-- Embedding of `CircuitBreaker.check_vix_percentile`. -/
def CircuitBreaker.check_vix_percentile (cb : CircuitBreaker)
    (vix_percentile : ℚ) : Bool :=
  vix_percentile ≥ cb.vix_percentile_limit

/-- Embedding of `CircuitBreaker.check_vix_spike`. -/
def CircuitBreaker.check_vix_spike (cb : CircuitBreaker)
    (vix_day_change_pct : ℚ) : Bool :=
  vix_day_change_pct > cb.vix_spike_pct

/-- Embedding of `CircuitBreaker.check_macro_proximity`.  Dates are day
numbers (`ℤ`); `parseDate` abstracts `datetime.fromisoformat(...).date()`,
returning `none` exactly when the library call raises
`ValueError`/`TypeError` (the `except ... continue` path).  `today`
abstracts `datetime.now().date()`. -/
def CircuitBreaker.check_macro_proximity (cb : CircuitBreaker)
    (parseDate : String → Option ℤ) (today : ℤ)
    (calendar_events : List CalEvent) : Bool :=
  calendar_events.any fun event =>
    match parseDate (event.date.getD "") with
    | none => false
    | some event_date => |today - event_date| ≤ cb.macro_blackout_days

/-- Tags for the six reason strings `check_all` can append, in source
order.  Each constructor stands for the corresponding `f`-string. -/
inductive CBReason where
  /-- `'Weekly P&L drawdown (...) exceeds limit (...)'` -/
  | weeklyDrawdown
  /-- `'VIX percentile (...) breaches threshold (...)'` -/
  | vixPercentile
  /-- `'VIX day-over-day spike (...) exceeds limit (...)'` -/
  | vixSpike
  /-- `'Inside macro-event blackout window (...)'` -/
  | macroBlackout
  /-- `'Regime is stressed - no trading'` -/
  | regimeStressed
  /-- `'Macro proximity elevated - no trading'` -/
  | macroElevated
  deriving DecidableEq

/-- Result of `CircuitBreaker.check_all`. -/
structure CBResult where
  trading_allowed : Bool
  reasons : List CBReason

/-- Embedding of `CircuitBreaker.check_all`: runs the six checks in source
order, appending a reason for each one that fires;
`trading_allowed = (len(reasons) == 0)`. -/
def CircuitBreaker.check_all (cb : CircuitBreaker)
    (parseDate : String → Option ℤ) (today : ℤ)
    (weekly_pnl_pct vix_percentile vix_day_change_pct : ℚ)
    (calendar_events : List CalEvent)
    (regime_label : Option String) (macro_proximity_elevated : Option Bool) :
    CBResult :=
  let reasons : List CBReason :=
    (if cb.check_weekly_drawdown weekly_pnl_pct
      then [CBReason.weeklyDrawdown] else [])
    ++ (if cb.check_vix_percentile vix_percentile
      then [CBReason.vixPercentile] else [])
    ++ (if cb.check_vix_spike vix_day_change_pct
      then [CBReason.vixSpike] else [])
    ++ (if cb.check_macro_proximity parseDate today calendar_events
      then [CBReason.macroBlackout] else [])
    ++ (if regime_label = some "stressed"
      then [CBReason.regimeStressed] else [])
    ++ (if macro_proximity_elevated = some true
      then [CBReason.macroElevated] else [])
  { trading_allowed := reasons.length = 0
    reasons := reasons }

/-! ## RiskEngine (`backend/risk_engine.py`) -/

/-- A portfolio position dict as consumed by the risk engine. -/
structure Position where
  symbol : String
  delta : ℚ
  vega : ℚ
  gamma : ℚ
  notional : ℚ
  earnings_date : Option String
  expiry_bucket : Option String

/-- The fields of the `calculate_portfolio_risk` snapshot that
`evaluate_ticket_risk` reads back (`portfolio_delta`, `portfolio_vega`,
`portfolio_gamma`, `sector_concentration`). -/
structure RiskSnapshot where
  portfolio_delta : ℚ
  portfolio_vega : ℚ
  portfolio_gamma : ℚ
  sector_concentration : List (String × ℚ)

/-- Tags for the three reason strings `evaluate_ticket_risk` can append, in
source order.  Each constructor stands for the corresponding `f`-string. -/
inductive RiskReason where
  /-- `'Trade max loss ...% exceeds ...% of equity'` -/
  | tradeMaxLoss
  /-- `'Weekly max loss ...% exceeds ...% of equity'` -/
  | weeklyMaxLoss
  /-- `'Weekly realized drawdown ...% exceeds ...% kill switch'` -/
  | killSwitchDrawdown
  deriving DecidableEq

/-- Result of `RiskEngine.evaluate_ticket_risk`. -/
structure RiskVerdict where
  portfolio_delta_before : ℚ
  portfolio_vega_before : ℚ
  portfolio_gamma_before : ℚ
  portfolio_delta_after : ℚ
  portfolio_vega_after : ℚ
  portfolio_gamma_after : ℚ
  max_loss_trade : ℚ
  max_loss_week : ℚ
  sector_concentration : List (String × ℚ)
  risk_limits_pass : Bool
  reasons : List RiskReason

/-- Python's `round(x, n)`: round to `n` decimal places, ties to even
(banker's rounding), over exact rationals. -/
def pyRound (x : ℚ) (n : ℕ) : ℚ :=
  let scaled := x * (10 : ℚ) ^ n
  let fl := ⌊scaled⌋
  let frac := scaled - (fl : ℚ)
  let i : ℤ :=
    if frac > 1 / 2 then fl + 1
    else if frac < 1 / 2 then fl
    else if fl % 2 = 0 then fl else fl + 1
  (i : ℚ) / (10 : ℚ) ^ n

/-- `RiskEngine.MAX_TRADE_RISK_PCT` (max risk per trade as % of equity). -/
def MAX_TRADE_RISK_PCT : ℚ := 1.5

/-- `RiskEngine.MAX_WEEKLY_LOSS_PCT`. -/
def MAX_WEEKLY_LOSS_PCT : ℚ := 5.0

/-- `RiskEngine.KILL_SWITCH_DRAWDOWN_PCT`. -/
def KILL_SWITCH_DRAWDOWN_PCT : ℚ := 3.0

/-- Embedding of `RiskEngine.evaluate_ticket_risk`.

`calcRisk` abstracts `self.calculate_portfolio_risk`, which depends on
network collaborators (`get_ticker_info`, `download_tickers` via yfinance)
and the wall clock; the theorems below quantify over it.  The three
hard-limit checks and the construction of `reasons` / `risk_limits_pass`
follow the source line by line: each check is guarded by `equity > 0`,
fires on a strict `>` comparison, and appends its reason; `passed` starts
`True` and is set `False` by any firing check. -/
def evaluate_ticket_risk (calcRisk : List Position → RiskSnapshot)
    (ticket_max_loss : ℚ) (ticket_position : Position)
    (existing_positions : List Position)
    (equity weekly_realized_pnl existing_weekly_max_losses : ℚ) :
    RiskVerdict :=
  let risk_before := calcRisk existing_positions
  let all_positions := existing_positions ++ [ticket_position]
  let risk_after := calcRisk all_positions
  let max_loss_trade := ticket_max_loss
  let max_loss_week := existing_weekly_max_losses + max_loss_trade
  let cond1 : Bool :=
    decide (0 < equity) && decide (max_loss_trade / equity * 100 > MAX_TRADE_RISK_PCT)
  let cond2 : Bool :=
    decide (0 < equity) && decide (max_loss_week / equity * 100 > MAX_WEEKLY_LOSS_PCT)
  let cond3 : Bool :=
    decide (0 < equity) && decide (weekly_realized_pnl < 0)
      && decide (|weekly_realized_pnl| / equity * 100 > KILL_SWITCH_DRAWDOWN_PCT)
  let reasons : List RiskReason :=
    (if cond1 then [RiskReason.tradeMaxLoss] else [])
    ++ (if cond2 then [RiskReason.weeklyMaxLoss] else [])
    ++ (if cond3 then [RiskReason.killSwitchDrawdown] else [])
  let passed : Bool := !(cond1 || cond2 || cond3)
  { portfolio_delta_before := risk_before.portfolio_delta
    portfolio_vega_before := risk_before.portfolio_vega
    portfolio_gamma_before := risk_before.portfolio_gamma
    portfolio_delta_after := risk_after.portfolio_delta
    portfolio_vega_after := risk_after.portfolio_vega
    portfolio_gamma_after := risk_after.portfolio_gamma
    max_loss_trade := pyRound max_loss_trade 2
    max_loss_week := pyRound max_loss_week 2
    sector_concentration := risk_after.sector_concentration
    risk_limits_pass := passed
    reasons := reasons }

/-! ## TradeTicket (`backend/trade_ticket.py`) -/

/-- A single option leg within a trade ticket (`TicketLeg`). -/
structure TicketLeg where
  type : String
  side : String
  strike : ℚ
  qty : ℤ
  delta : Option ℚ
  vega : Option ℚ
  gamma : Option ℚ
  price : Option ℚ

/-- Volatility edge metrics attached to the ticket (`EdgeMetrics`). -/
structure EdgeMetrics where
  iv_pct : Option ℚ
  implied_move : Option ℚ
  realized_proxy : Option ℚ
  iv_richness : Option ℚ
  skew_metric : Option ℚ
  term_structure : Option ℚ

/-- Regime-based go/no-go gate (`RegimeGate`). -/
structure RegimeGate where
  passed : Bool
  reasons : List String

/-- Projected portfolio risk metrics after the trade (`PortfolioAfter`). -/
structure PortfolioAfter where
  delta : ℚ
  vega : ℚ
  gamma : ℚ
  max_loss_trade : ℚ
  max_loss_week : ℚ

/-- Risk-based go/no-go gate (`RiskGate`); its reasons come from the risk
engine and are embedded as `RiskReason` tags. -/
structure RiskGate where
  passed : Bool
  reasons : List RiskReason
  portfolio_after : PortfolioAfter

/-- Default exit rules (`Exits`). -/
structure Exits where
  take_profit_pct : ℚ
  stop_loss_multiple : ℚ
  time_stop_days : ℤ

/-- The structured trade ticket (`TradeTicket`). -/
structure TradeTicket where
  strategy : String
  underlying : String
  timestamp : String
  data_timestamp : String
  expiry : Option String
  dte : Option ℤ
  legs : List TicketLeg
  mid_credit : ℚ
  limit_credit : ℚ
  width : ℚ
  max_loss : ℚ
  pop_estimate : Option ℚ
  edge_metrics : EdgeMetrics
  regime_gate : RegimeGate
  risk_gate : RiskGate
  confidence_score : ℚ
  exits : Exits
  ticket_id : Option String
  status : String

/-- One iteration of the leg loop in `evaluate_ticket`: the accumulator is
`(combined_delta, combined_vega, combined_gamma, combined_notional)`.
`leg.delta or 0.0` is `Option.getD _ 0` (Python's `or` maps both `None`
and `0.0` to `0.0`). -/
def legStep (acc : ℚ × ℚ × ℚ × ℚ) (leg : TicketLeg) : ℚ × ℚ × ℚ × ℚ :=
  let sign : ℚ := if leg.side = "buy" then 1 else -1
  let qty : ℚ := (leg.qty : ℚ)
  (acc.1 + sign * qty * leg.delta.getD 0,
   acc.2.1 + sign * qty * leg.vega.getD 0,
   acc.2.2.1 + sign * qty * leg.gamma.getD 0,
   acc.2.2.2 + |qty * leg.price.getD 0 * 100|)

/-- The synthetic `new_position` dict built by `evaluate_ticket` from the
ticket's legs. -/
def syntheticPosition (ticket : TradeTicket) : Position :=
  let c := ticket.legs.foldl legStep (0, 0, 0, 0)
  { symbol := ticket.underlying
    delta := c.1
    vega := c.2.1
    gamma := c.2.2.1
    notional := c.2.2.2
    earnings_date := none
    expiry_bucket := none }

/-- Embedding of the module-level function `evaluate_ticket`: derives the
synthetic position, calls `RiskEngine.evaluate_ticket_risk` (with the risk
engine's portfolio-risk collaborator abstracted as `calcRisk`), and
returns the ticket with only `risk_gate` replaced. -/
def evaluate_ticket (calcRisk : List Position → RiskSnapshot)
    (ticket : TradeTicket) (existing_positions : List Position)
    (equity weekly_realized_pnl existing_weekly_max_losses : ℚ) :
    TradeTicket :=
  let result := evaluate_ticket_risk calcRisk ticket.max_loss
    (syntheticPosition ticket) existing_positions
    equity weekly_realized_pnl existing_weekly_max_losses
  let portfolio_after : PortfolioAfter :=
    { delta := result.portfolio_delta_after
      vega := result.portfolio_vega_after
      gamma := result.portfolio_gamma_after
      max_loss_trade := result.max_loss_trade
      max_loss_week := result.max_loss_week }
  { ticket with
      risk_gate :=
        { passed := result.risk_limits_pass
          reasons := result.reasons
          portfolio_after := portfolio_after } }

/-! ## TicketStore (`backend/db.py`)

The SQLite tables are embedded as in-memory lists of rows; the
auto-increment `id` columns are not modelled (no code path reads them).
`datetime.now(timezone.utc).isoformat()` is abstracted as an explicit
`now` argument. -/

/-- A row of the `tickets` table. -/
structure TicketRow where
  ticket_id : String
  ticket_hash : String
  symbol : String
  strategy : String
  payload : String
  status : String
  created_at : String

/-- A row of the `approvals` table (also the dict `approve_ticket`
returns). -/
structure ApprovalRow where
  ticket_id : String
  ticket_hash : String
  approved_at : String
  deriving DecidableEq

/-- A row of the `rejections` table (also the dict `reject_ticket`
returns). -/
structure RejectionRow where
  ticket_id : String
  ticket_hash : String
  reason : Option String
  rejected_at : String
  deriving DecidableEq

/-- The persistent store: the three tables the confirmation workflow
writes. -/
structure Store where
  tickets : List TicketRow
  approvals : List ApprovalRow
  rejections : List RejectionRow

/-- The two exceptions `approve_ticket` / `reject_ticket` can raise:
`KeyError(f"Ticket {id} not found")` and
`ValueError(f"Ticket {id} is already {status}")`. -/
inductive DbError where
  | notFound (ticket_id : String)
  | conflict (ticket_id : String) (current_status : String)
  deriving DecidableEq

/-- `SELECT * FROM tickets WHERE ticket_id = ?` (primary-key lookup,
first match). -/
def Store.findTicket (st : Store) (ticket_id : String) : Option TicketRow :=
  st.tickets.find? fun r => r.ticket_id == ticket_id

/-- `UPDATE tickets SET status = ? WHERE ticket_id = ?`. -/
def Store.setStatus (st : Store) (ticket_id new_status : String) : Store :=
  { st with
      tickets := st.tickets.map fun r =>
        if r.ticket_id == ticket_id then { r with status := new_status } else r }

/-- Embedding of `db.approve_ticket`: not-found check, then the
status-pending guard, then the `(ticket_id, ticket_hash)` idempotency
lookup in `approvals`, then the update + insert, in source order. -/
def approve_ticket (st : Store) (ticket_id : String) (now : String) :
    Except DbError (ApprovalRow × Store) :=
  match st.findTicket ticket_id with
  | none => .error (.notFound ticket_id)
  | some row =>
    if row.status ≠ "pending" then
      .error (.conflict ticket_id row.status)
    else
      let ticket_hash := row.ticket_hash
      match st.approvals.find?
          (fun a => a.ticket_id == ticket_id && a.ticket_hash == ticket_hash) with
      | some existing => .ok (existing, st)
      | none =>
        let rcd : ApprovalRow :=
          { ticket_id := ticket_id, ticket_hash := ticket_hash, approved_at := now }
        let st' := st.setStatus ticket_id "approved"
        .ok (rcd, { st' with approvals := st'.approvals ++ [rcd] })

/-- Embedding of `db.reject_ticket`: same shape as `approve_ticket`, with
the `rejections` table and an optional reason. -/
def reject_ticket (st : Store) (ticket_id : String) (reason : Option String)
    (now : String) : Except DbError (RejectionRow × Store) :=
  match st.findTicket ticket_id with
  | none => .error (.notFound ticket_id)
  | some row =>
    if row.status ≠ "pending" then
      .error (.conflict ticket_id row.status)
    else
      let ticket_hash := row.ticket_hash
      match st.rejections.find?
          (fun a => a.ticket_id == ticket_id && a.ticket_hash == ticket_hash) with
      | some existing => .ok (existing, st)
      | none =>
        let rcd : RejectionRow :=
          { ticket_id := ticket_id, ticket_hash := ticket_hash
            reason := reason, rejected_at := now }
        let st' := st.setStatus ticket_id "rejected"
        .ok (rcd, { st' with rejections := st'.rejections ++ [rcd] })

/-- The store produced by the fresh-approval path of `approve_ticket`:
status flipped to `'approved'` and one approval row appended. -/
def approvedStore (st : Store) (ticket_id hash now : String) : Store :=
  { st.setStatus ticket_id "approved" with
      approvals := (st.setStatus ticket_id "approved").approvals
        ++ [{ ticket_id := ticket_id, ticket_hash := hash, approved_at := now }] }

/-- The store states reachable through the module's own write path: a
pending ticket has no approval row for its `(ticket_id, ticket_hash)`
yet, since `approve_ticket` inserts the approval and flips the status to
`'approved'` in the same transaction. -/
def Store.consistent (st : Store) : Prop :=
  ∀ row ∈ st.tickets, row.status = "pending" →
    st.approvals.find?
      (fun a => a.ticket_id == row.ticket_id && a.ticket_hash == row.ticket_hash)
      = none

/-! ## DerivativesCalculator (`backend/derivatives_calculator.py`)

The pricing engine is embedded over `ℝ`: `scipy.stats.norm.pdf` /
`norm.cdf` become the exact standard normal density and its cumulative
integral.  Option type is the string argument of the source
(`'call'` vs anything else). -/

open MeasureTheory

/-- The standard normal density `scipy.stats.norm.pdf`:
`φ(x) = e^(-x²/2) / √(2π)`. -/
noncomputable def normPdf (x : ℝ) : ℝ :=
  (Real.sqrt (2 * Real.pi))⁻¹ * Real.exp (-(1 / 2) * x ^ 2)

/-- The standard normal cumulative distribution `scipy.stats.norm.cdf`:
`Φ(x) = ∫_{-∞}^{x} φ`. -/
noncomputable def Phi (x : ℝ) : ℝ := ∫ t in Set.Iic x, normPdf t

lemma normPdf_even (x : ℝ) : normPdf (-x) = normPdf x := by
  simp [normPdf, neg_sq]

lemma integrable_normPdf : Integrable normPdf := by
  have h : Integrable (fun x : ℝ => Real.exp (-(1 / 2 : ℝ) * x ^ 2)) :=
    integrable_exp_neg_mul_sq (by norm_num)
  exact h.const_mul ((Real.sqrt (2 * Real.pi))⁻¹)

lemma integral_normPdf : (∫ x : ℝ, normPdf x) = 1 := by
  have h : (∫ x : ℝ, Real.exp (-(1 / 2 : ℝ) * x ^ 2)) = Real.sqrt (2 * Real.pi) := by
    rw [integral_gaussian]
    congr 1
    ring
  have hpos : (0 : ℝ) < Real.sqrt (2 * Real.pi) :=
    Real.sqrt_pos.mpr (by positivity)
  rw [show normPdf = fun x : ℝ =>
        (Real.sqrt (2 * Real.pi))⁻¹ * Real.exp (-(1 / 2) * x ^ 2) from rfl,
    integral_mul_left, h, inv_mul_cancel₀ (ne_of_gt hpos)]

/-- The key algebraic fact behind put-call parity:
`Φ(x) + Φ(-x) = 1`. -/
lemma Phi_add_Phi_neg (x : ℝ) : Phi x + Phi (-x) = 1 := by
  have h1 : Phi (-x) = ∫ t in Set.Ioi x, normPdf t := by
    rw [Phi, ← integral_comp_neg_Ioi]
    simp only [normPdf_even]
  have h2 := integral_add_compl (measurableSet_Iic (a := x))
    integrable_normPdf (μ := (volume : Measure ℝ))
  rw [Set.compl_Iic] at h2
  rw [Phi, h1, h2, integral_normPdf]

/-- `d1` of the Black-Scholes formulas, exactly as computed at each call
site: `(ln(S/K) + (r - q + 0.5·σ²)·T) / (σ·√T)`. -/
noncomputable def bs_d1 (S K T r sigma q : ℝ) : ℝ :=
  (Real.log (S / K) + (r - q + 0.5 * sigma ^ 2) * T) / (sigma * Real.sqrt T)

/-- `d2 = d1 - σ·√T`. -/
noncomputable def bs_d2 (S K T r sigma q : ℝ) : ℝ :=
  bs_d1 S K T r sigma q - sigma * Real.sqrt T

/-- Embedding of `DerivativesCalculator.black_scholes_price`. -/
noncomputable def black_scholes_price (S K T r sigma : ℝ)
    (option_type : String) (q : ℝ) : ℝ :=
  if T ≤ 0 then
    if option_type = "call" then max (S - K) 0 else max (K - S) 0
  else
    let d1 := bs_d1 S K T r sigma q
    let d2 := bs_d2 S K T r sigma q
    if option_type = "call" then
      S * Real.exp (-q * T) * Phi d1 - K * Real.exp (-r * T) * Phi d2
    else
      K * Real.exp (-r * T) * Phi (-d2) - S * Real.exp (-q * T) * Phi (-d1)

/-- The dict returned by `DerivativesCalculator.calculate_greeks`; the
`implied_volatility` key is absent (`none`) in the expired branch. -/
structure Greeks where
  price : ℝ
  delta : ℝ
  gamma : ℝ
  vega_per_1pct : ℝ
  theta : ℝ
  rho_per_1pct : ℝ
  implied_volatility : Option ℝ

/-- Embedding of `DerivativesCalculator.calculate_greeks` (parameter order
as in the source: `S, K, T, sigma, r, option_type, q`). -/
noncomputable def calculate_greeks (S K T sigma r : ℝ)
    (option_type : String) (q : ℝ) : Greeks :=
  if T ≤ 0 then
    { price := if option_type = "call" then max (S - K) 0 else max (K - S) 0
      delta := if option_type = "call" ∧ S > K then 1 else 0
      gamma := 0
      vega_per_1pct := 0
      theta := 0
      rho_per_1pct := 0
      implied_volatility := none }
  else
    let d1 := bs_d1 S K T r sigma q
    let d2 := bs_d2 S K T r sigma q
    let price := black_scholes_price S K T r sigma option_type q
    let delta :=
      if option_type = "call" then Real.exp (-q * T) * Phi d1
      else -Real.exp (-q * T) * Phi (-d1)
    let gamma := Real.exp (-q * T) * normPdf d1 / (S * sigma * Real.sqrt T)
    let raw_vega := S * Real.exp (-q * T) * normPdf d1 * Real.sqrt T
    let vega_per_1pct := raw_vega / 100
    let common_term :=
      -(S * Real.exp (-q * T) * normPdf d1 * sigma) / (2 * Real.sqrt T)
    let theta :=
      if option_type = "call" then
        (common_term + q * S * Real.exp (-q * T) * Phi d1
          - r * K * Real.exp (-r * T) * Phi d2) / 365
      else
        (common_term - q * S * Real.exp (-q * T) * Phi (-d1)
          + r * K * Real.exp (-r * T) * Phi (-d2)) / 365
    let raw_rho :=
      if option_type = "call" then K * T * Real.exp (-r * T) * Phi d2
      else -(K * T * Real.exp (-r * T) * Phi (-d2))
    { price := price
      delta := delta
      gamma := gamma
      vega_per_1pct := vega_per_1pct
      theta := theta
      rho_per_1pct := raw_rho / 100
      implied_volatility := some sigma }

/-- The `raw_vega` recomputed inside each Newton iteration of
`calculate_implied_volatility`. -/
noncomputable def raw_vega_at (S K T r sigma q : ℝ) : ℝ :=
  S * Real.exp (-q * T) * normPdf (bs_d1 S K T r sigma q) * Real.sqrt T

/-- The `for i in range(max_iterations)` loop of
`calculate_implied_volatility`, as fuel recursion on the remaining
iteration count; the final `return sigma` is the fuel-0 case. -/
noncomputable def ivLoop (market_price S K T r : ℝ) (option_type : String)
    (q tolerance : ℝ) : ℕ → ℝ → ℝ
  | 0, sigma => sigma
  | n + 1, sigma =>
    let price := black_scholes_price S K T r sigma option_type q
    let raw_vega := raw_vega_at S K T r sigma q
    let diff := market_price - price
    if |diff| < tolerance then sigma
    else if raw_vega = 0 then sigma
    else
      let sigma' := sigma + diff / raw_vega
      ivLoop market_price S K T r option_type q tolerance n
        (if sigma' ≤ 0 then 0.01 else sigma')

/-- Embedding of `DerivativesCalculator.calculate_implied_volatility`. -/
noncomputable def calculate_implied_volatility (market_price S K T r : ℝ)
    (option_type : String) (q initial_guess tolerance : ℝ)
    (max_iterations : ℕ) : ℝ :=
  ivLoop market_price S K T r option_type q tolerance max_iterations
    initial_guess

/-! ## Concrete instances used to witness the theorems -/

/-- A portfolio-risk collaborator returning the all-zero snapshot. -/
def trivialRisk : List Position → RiskSnapshot :=
  fun _ => { portfolio_delta := 0, portfolio_vega := 0, portfolio_gamma := 0
             sector_concentration := [] }

/-- A concrete ticket position. -/
def examplePosition : Position :=
  { symbol := "SPY", delta := 0, vega := 0, gamma := 0, notional := 0
    earnings_date := none, expiry_bucket := none }

/-- A concrete one-ticket store whose single ticket is pending, with empty
audit tables. -/
def exampleStore : Store :=
  { tickets := [{ ticket_id := "T1", ticket_hash := "h1", symbol := "SPY"
                  strategy := "SPY_IRON_CONDOR", payload := "{}"
                  status := "pending", created_at := "t0" }]
    approvals := []
    rejections := [] }

/-- A concrete trade ticket with two legs. -/
def exampleTicket : TradeTicket :=
  { strategy := "SPY_IRON_CONDOR"
    underlying := "SPY"
    timestamp := "t0"
    data_timestamp := "t0"
    expiry := none
    dte := some 7
    legs := [{ type := "put", side := "sell", strike := 95, qty := 1
               delta := some (-3/10), vega := some (1/10), gamma := some (1/100)
               price := some 2 },
             { type := "put", side := "buy", strike := 90, qty := 1
               delta := some (-2/10), vega := some (1/20), gamma := some (1/200)
               price := some 1 }]
    mid_credit := 1
    limit_credit := 1
    width := 5
    max_loss := 400
    pop_estimate := none
    edge_metrics := { iv_pct := none, implied_move := none
                      realized_proxy := none, iv_richness := none
                      skew_metric := none, term_structure := none }
    regime_gate := { passed := true, reasons := [] }
    risk_gate := { passed := true, reasons := []
                   portfolio_after := { delta := 0, vega := 0, gamma := 0
                                        max_loss_trade := 0, max_loss_week := 0 } }
    confidence_score := 1/2
    exits := { take_profit_pct := 50, stop_loss_multiple := 2, time_stop_days := 21 }
    ticket_id := some "T1"
    status := "pending" }

/-! ## Theorems for the claims -/

/-- C4: for every combination of sub-signal labels,
`_determine_risk_appetite` equals the weighted-count rule (stressed vol
adds 2 risk-off, compressed adds 2 risk-on; high/low correlation 1 each
way; negative/positive gamma 1 each way; elevated macro 1 risk-off;
result is `risk_off` iff the risk-off tally is ≥ 3, else `risk_on` iff
the risk-on tally is ≥ 3, else `neutral`); in particular
stressed+high-corr+negative-gamma+macro-elevated yields `risk_off`,
compressed+low-corr+positive-gamma+no-macro yields `risk_on`, and
all-neutral inputs yield `neutral`. -/
theorem determine_risk_appetite_weighted_count :
    (∀ (volRegime corrRegime gammaDirection : String) (macroElevated : Bool),
      determineRiskAppetite volRegime corrRegime gammaDirection macroElevated
        = riskAppetiteSpecRule volRegime corrRegime gammaDirection macroElevated)
    ∧ determineRiskAppetite "stressed" "high" "negative" true = "risk_off"
    ∧ determineRiskAppetite "compressed" "low" "positive" false = "risk_on"
    ∧ determineRiskAppetite "expanding" "medium" "neutral" false = "neutral" := by
  refine ⟨?_, by decide, by decide, by decide⟩
  intro v c g m
  by_cases hv1 : v = "stressed" <;> by_cases hv2 : v = "compressed" <;>
    by_cases hc1 : c = "high" <;> by_cases hc2 : c = "low" <;>
    by_cases hg1 : g = "negative" <;> by_cases hg2 : g = "positive" <;>
    cases m <;>
    simp_all [determineRiskAppetite, riskAppetiteSpecRule]

lemma mem_ite_singleton {α : Type _} (c : Prop) [Decidable c] (a b : α) :
    (a ∈ if c then [b] else []) ↔ c ∧ a = b := by
  split_ifs with h <;> simp [h]

/-- C5: the CircuitBreaker weekly-drawdown boundary is strict: for every
configured threshold and every `weekly_pnl_pct`, `check_all` includes the
weekly-drawdown reason iff `weekly_pnl_pct < -threshold`; whenever it is
included trading is blocked; and `weekly_pnl_pct` exactly equal to
`-threshold` does not fire the check. -/
theorem check_all_weekly_drawdown_strict
    (cb : CircuitBreaker) (parseDate : String → Option ℤ) (today : ℤ)
    (weekly_pnl_pct vix_percentile vix_day_change_pct : ℚ)
    (calendar_events : List CalEvent) (regime_label : Option String)
    (macro_proximity_elevated : Option Bool) :
    (CBReason.weeklyDrawdown ∈ (cb.check_all parseDate today weekly_pnl_pct
        vix_percentile vix_day_change_pct calendar_events regime_label
        macro_proximity_elevated).reasons
      ↔ weekly_pnl_pct < -cb.weekly_drawdown_pct)
    ∧ (weekly_pnl_pct < -cb.weekly_drawdown_pct →
      (cb.check_all parseDate today weekly_pnl_pct vix_percentile
        vix_day_change_pct calendar_events regime_label
        macro_proximity_elevated).trading_allowed = false)
    ∧ CBReason.weeklyDrawdown ∉ (cb.check_all parseDate today
        (-cb.weekly_drawdown_pct) vix_percentile vix_day_change_pct
        calendar_events regime_label macro_proximity_elevated).reasons := by
  refine ⟨?_, ?_, ?_⟩
  · simp [CircuitBreaker.check_all, CircuitBreaker.check_weekly_drawdown,
      mem_ite_singleton]
  · intro h
    simp [CircuitBreaker.check_all, CircuitBreaker.check_weekly_drawdown, h]
  · simp [CircuitBreaker.check_all, CircuitBreaker.check_weekly_drawdown,
      mem_ite_singleton]

/-- Witness for C5 at the default thresholds: a weekly P&L of −6% is
strictly below −5% and trading is blocked. -/
theorem check_all_weekly_drawdown_strict_witness :
    (CircuitBreaker.defaults.check_all (fun _ => none) 0 (-6) 0 0 [] none
      none).trading_allowed = false :=
  (check_all_weekly_drawdown_strict CircuitBreaker.defaults (fun _ => none) 0
    (-6) 0 0 [] none none).2.1 (by norm_num [CircuitBreaker.defaults])

/-- C9: with `equity ≤ 0` every hard-limit check in
`evaluate_ticket_risk` is skipped, so the verdict always passes with an
empty reason list, whatever the loss inputs are. -/
theorem evaluate_ticket_risk_nonpositive_equity
    (calcRisk : List Position → RiskSnapshot) (ticket_max_loss : ℚ)
    (ticket_position : Position) (existing_positions : List Position)
    (equity weekly_realized_pnl existing_weekly_max_losses : ℚ)
    (h : equity ≤ 0) :
    (evaluate_ticket_risk calcRisk ticket_max_loss ticket_position
      existing_positions equity weekly_realized_pnl
      existing_weekly_max_losses).risk_limits_pass = true
    ∧ (evaluate_ticket_risk calcRisk ticket_max_loss ticket_position
      existing_positions equity weekly_realized_pnl
      existing_weekly_max_losses).reasons = [] := by
  have h' : decide (0 < equity) = false := decide_eq_false (not_lt.mpr h)
  constructor <;> simp [evaluate_ticket_risk, h']

/-- Witness for C9: zero equity with a huge ticket loss and a deep weekly
drawdown still passes with no reasons. -/
theorem evaluate_ticket_risk_nonpositive_equity_witness :
    (evaluate_ticket_risk trivialRisk 50000 examplePosition [] 0 (-10000)
      20000).risk_limits_pass = true
    ∧ (evaluate_ticket_risk trivialRisk 50000 examplePosition [] 0 (-10000)
      20000).reasons = [] :=
  evaluate_ticket_risk_nonpositive_equity trivialRisk 50000 examplePosition []
    0 (-10000) 20000 (by norm_num)

/-- C6: for positive equity the per-trade limit of
`evaluate_ticket_risk` is strict: a max loss landing exactly on the cap
(`MAX_TRADE_RISK_PCT`, default 1.5% of equity) does not fire the check,
any max loss strictly above it sets `risk_limits_pass` to `False` and
appends the "Trade max loss" reason, and the three hard-limit checks are
independent with their reasons accumulating in order. -/
theorem evaluate_ticket_risk_per_trade_strict
    (calcRisk : List Position → RiskSnapshot) (ticket_max_loss : ℚ)
    (ticket_position : Position) (existing_positions : List Position)
    (equity weekly_realized_pnl existing_weekly_max_losses : ℚ)
    (h : 0 < equity) :
    (ticket_max_loss / equity * 100 = MAX_TRADE_RISK_PCT →
      RiskReason.tradeMaxLoss ∉ (evaluate_ticket_risk calcRisk ticket_max_loss
        ticket_position existing_positions equity weekly_realized_pnl
        existing_weekly_max_losses).reasons)
    ∧ (RiskReason.tradeMaxLoss ∈ (evaluate_ticket_risk calcRisk ticket_max_loss
        ticket_position existing_positions equity weekly_realized_pnl
        existing_weekly_max_losses).reasons
      ↔ ticket_max_loss / equity * 100 > MAX_TRADE_RISK_PCT)
    ∧ (ticket_max_loss / equity * 100 > MAX_TRADE_RISK_PCT →
      (evaluate_ticket_risk calcRisk ticket_max_loss ticket_position
        existing_positions equity weekly_realized_pnl
        existing_weekly_max_losses).risk_limits_pass = false)
    ∧ (evaluate_ticket_risk calcRisk ticket_max_loss ticket_position
        existing_positions equity weekly_realized_pnl
        existing_weekly_max_losses).reasons =
      (if ticket_max_loss / equity * 100 > MAX_TRADE_RISK_PCT
        then [RiskReason.tradeMaxLoss] else [])
      ++ (if (existing_weekly_max_losses + ticket_max_loss) / equity * 100
            > MAX_WEEKLY_LOSS_PCT
        then [RiskReason.weeklyMaxLoss] else [])
      ++ (if weekly_realized_pnl < 0
            ∧ |weekly_realized_pnl| / equity * 100 > KILL_SWITCH_DRAWDOWN_PCT
        then [RiskReason.killSwitchDrawdown] else []) := by
  have h' : decide (0 < equity) = true := decide_eq_true h
  refine ⟨?_, ?_, ?_, ?_⟩
  · intro heq
    simp [evaluate_ticket_risk, h', mem_ite_singleton, heq]
  · simp [evaluate_ticket_risk, h', mem_ite_singleton]
  · intro hgt
    simp [evaluate_ticket_risk, h', hgt]
  · simp only [evaluate_ticket_risk, h', Bool.true_and, decide_eq_true_eq]
    split_ifs <;> simp_all

/-- Witness for C6 at equity 100000: a max loss of exactly 1500 (= 1.5%)
does not fire the per-trade check. -/
theorem evaluate_ticket_risk_per_trade_strict_witness :
    RiskReason.tradeMaxLoss ∉ (evaluate_ticket_risk trivialRisk 1500
      examplePosition [] 100000 0 0).reasons :=
  (evaluate_ticket_risk_per_trade_strict trivialRisk 1500 examplePosition []
    100000 0 0 (by norm_num)).1 (by norm_num [MAX_TRADE_RISK_PCT])

lemma option_match_blackout_true (cb : CircuitBreaker) (today : ℤ)
    (o : Option ℤ) :
    ((match o with
      | none => false
      | some event_date =>
        decide (|today - event_date| ≤ cb.macro_blackout_days)) = true)
      ↔ ∃ d, o = some d ∧ |today - d| ≤ cb.macro_blackout_days := by
  cases o <;> simp

/-- C10: `check_macro_proximity` silently skips events whose date field is
missing or unparseable (the parser abstraction returns `none` exactly when
`datetime.fromisoformat` raises), returns `true` iff some event with a
parseable date lies within ±`macro_blackout_days` of today, and a list of
only malformed events never triggers the blackout. -/
theorem check_macro_proximity_parseable
    (cb : CircuitBreaker) (parseDate : String → Option ℤ) (today : ℤ)
    (calendar_events : List CalEvent) :
    (cb.check_macro_proximity parseDate today calendar_events = true
      ↔ ∃ e ∈ calendar_events, ∃ d, parseDate (e.date.getD "") = some d
          ∧ |today - d| ≤ cb.macro_blackout_days)
    ∧ ((∀ e ∈ calendar_events, parseDate (e.date.getD "") = none) →
      cb.check_macro_proximity parseDate today calendar_events = false) := by
  constructor
  · simp only [CircuitBreaker.check_macro_proximity, List.any_eq_true,
      option_match_blackout_true]
  · intro hall
    simp only [CircuitBreaker.check_macro_proximity]
    rw [Bool.eq_false_iff]
    intro hany
    rcases List.any_eq_true.mp hany with ⟨e, he, hp⟩
    rcases (option_match_blackout_true cb today _).mp hp with ⟨d, hd, _⟩
    rw [hall e he] at hd
    exact Option.noConfusion hd

/-- Witness for C10: a list holding one event with no date field and one
with a date the parser rejects never triggers the blackout. -/
theorem check_macro_proximity_parseable_witness :
    CircuitBreaker.defaults.check_macro_proximity (fun _ => none) 0
      [{ date := none }, { date := some "not-a-date" }] = false :=
  (check_macro_proximity_parseable CircuitBreaker.defaults (fun _ => none) 0
    [{ date := none }, { date := some "not-a-date" }]).2
    (fun _ _ => rfl)

lemma legs_foldl_eq (legs : List TicketLeg) (a b c d : ℚ) :
    legs.foldl legStep (a, b, c, d) =
      (a + (legs.map fun l =>
          (if l.side = "buy" then (1 : ℚ) else -1) * (l.qty : ℚ) * l.delta.getD 0).sum,
       b + (legs.map fun l =>
          (if l.side = "buy" then (1 : ℚ) else -1) * (l.qty : ℚ) * l.vega.getD 0).sum,
       c + (legs.map fun l =>
          (if l.side = "buy" then (1 : ℚ) else -1) * (l.qty : ℚ) * l.gamma.getD 0).sum,
       d + (legs.map fun l => |(l.qty : ℚ) * l.price.getD 0 * 100|).sum) := by
  induction legs generalizing a b c d with
  | nil => simp
  | cons l ls ih =>
    simp only [List.foldl_cons, List.map_cons, List.sum_cons, legStep]
    rw [ih]
    simp only [Prod.mk.injEq]
    refine ⟨by ring, by ring, by ring, by ring⟩

/-- C8: `evaluate_ticket` changes only the ticket's `risk_gate`: the
synthetic position sums `sign·quantity·greek` (sign +1 for side "buy",
−1 otherwise) over the legs with notional `Σ|quantity·price·100|`, the
RiskEngine verdict on that position is written into `risk_gate`, and
every other ticket field is returned unchanged. -/
theorem evaluate_ticket_frame
    (calcRisk : List Position → RiskSnapshot) (ticket : TradeTicket)
    (existing_positions : List Position)
    (equity weekly_realized_pnl existing_weekly_max_losses : ℚ) :
    ((syntheticPosition ticket).symbol = ticket.underlying
      ∧ (syntheticPosition ticket).delta = (ticket.legs.map fun l =>
          (if l.side = "buy" then (1 : ℚ) else -1) * (l.qty : ℚ) * l.delta.getD 0).sum
      ∧ (syntheticPosition ticket).vega = (ticket.legs.map fun l =>
          (if l.side = "buy" then (1 : ℚ) else -1) * (l.qty : ℚ) * l.vega.getD 0).sum
      ∧ (syntheticPosition ticket).gamma = (ticket.legs.map fun l =>
          (if l.side = "buy" then (1 : ℚ) else -1) * (l.qty : ℚ) * l.gamma.getD 0).sum
      ∧ (syntheticPosition ticket).notional =
          (ticket.legs.map fun l => |(l.qty : ℚ) * l.price.getD 0 * 100|).sum)
    ∧ (evaluate_ticket calcRisk ticket existing_positions equity
        weekly_realized_pnl existing_weekly_max_losses).risk_gate =
      { passed := (evaluate_ticket_risk calcRisk ticket.max_loss
          (syntheticPosition ticket) existing_positions equity
          weekly_realized_pnl existing_weekly_max_losses).risk_limits_pass
        reasons := (evaluate_ticket_risk calcRisk ticket.max_loss
          (syntheticPosition ticket) existing_positions equity
          weekly_realized_pnl existing_weekly_max_losses).reasons
        portfolio_after :=
          { delta := (evaluate_ticket_risk calcRisk ticket.max_loss
              (syntheticPosition ticket) existing_positions equity
              weekly_realized_pnl existing_weekly_max_losses).portfolio_delta_after
            vega := (evaluate_ticket_risk calcRisk ticket.max_loss
              (syntheticPosition ticket) existing_positions equity
              weekly_realized_pnl existing_weekly_max_losses).portfolio_vega_after
            gamma := (evaluate_ticket_risk calcRisk ticket.max_loss
              (syntheticPosition ticket) existing_positions equity
              weekly_realized_pnl existing_weekly_max_losses).portfolio_gamma_after
            max_loss_trade := (evaluate_ticket_risk calcRisk ticket.max_loss
              (syntheticPosition ticket) existing_positions equity
              weekly_realized_pnl existing_weekly_max_losses).max_loss_trade
            max_loss_week := (evaluate_ticket_risk calcRisk ticket.max_loss
              (syntheticPosition ticket) existing_positions equity
              weekly_realized_pnl existing_weekly_max_losses).max_loss_week } }
    ∧ (evaluate_ticket calcRisk ticket existing_positions equity
        weekly_realized_pnl existing_weekly_max_losses) =
      { ticket with
          risk_gate := (evaluate_ticket calcRisk ticket existing_positions
            equity weekly_realized_pnl existing_weekly_max_losses).risk_gate }
    ∧ (evaluate_ticket calcRisk ticket existing_positions equity
        weekly_realized_pnl existing_weekly_max_losses).ticket_id = ticket.ticket_id
    ∧ (evaluate_ticket calcRisk ticket existing_positions equity
        weekly_realized_pnl existing_weekly_max_losses).status = ticket.status
    ∧ (evaluate_ticket calcRisk ticket existing_positions equity
        weekly_realized_pnl existing_weekly_max_losses).regime_gate = ticket.regime_gate
    ∧ (evaluate_ticket calcRisk ticket existing_positions equity
        weekly_realized_pnl existing_weekly_max_losses).legs = ticket.legs := by
  refine ⟨⟨rfl, ?_, ?_, ?_, ?_⟩, rfl, rfl, rfl, rfl, rfl, rfl⟩ <;>
    simp only [syntheticPosition, legs_foldl_eq, zero_add]

lemma list_find?_map_pres {α : Type _} (p : α → Bool) (f : α → α)
    (hf : ∀ a, p (f a) = p a) (l : List α) :
    (l.map f).find? p = (l.find? p).map f := by
  induction l with
  | nil => rfl
  | cons a l ih =>
    by_cases h : p a = true
    · rw [List.map_cons, List.find?_cons_of_pos _ (by rw [hf]; exact h),
        List.find?_cons_of_pos _ h, Option.map_some']
    · rw [List.map_cons, List.find?_cons_of_neg _ (by rw [hf]; exact h),
        List.find?_cons_of_neg _ h, ih]

lemma findTicket_setStatus (st : Store) (id s : String) :
    (st.setStatus id s).findTicket id =
      (st.findTicket id).map
        (fun r => if r.ticket_id == id then { r with status := s } else r) := by
  unfold Store.setStatus Store.findTicket
  exact list_find?_map_pres _ _
    (fun a => by by_cases h : a.ticket_id == id <;> simp [h]) _

/-- C2: `approve_ticket` / `reject_ticket` on an id whose stored status is
not `'pending'` raise the conflict error naming the current status; the
status guard precedes the `(id, hash)` idempotency lookup, so a second
approve of an already-approved ticket always raises the conflict (never
returns the existing approval record); an id absent from the store raises
the distinct not-found error; and a successful approve flips the status
to `'approved'` and appends exactly one audit row.  The last two parts
hold on reachable stores (`Store.consistent`). -/
theorem ticket_store_transitions (st : Store) (ticket_id : String) :
    (st.findTicket ticket_id = none → ∀ now reason,
      approve_ticket st ticket_id now = .error (.notFound ticket_id)
      ∧ reject_ticket st ticket_id reason now = .error (.notFound ticket_id))
    ∧ (∀ row, st.findTicket ticket_id = some row → row.status ≠ "pending" →
      ∀ now reason,
      approve_ticket st ticket_id now = .error (.conflict ticket_id row.status)
      ∧ reject_ticket st ticket_id reason now
        = .error (.conflict ticket_id row.status))
    ∧ (st.consistent → ∀ row, st.findTicket ticket_id = some row →
      row.status = "pending" → ∀ now, ∃ st',
      approve_ticket st ticket_id now =
        .ok ({ ticket_id := ticket_id, ticket_hash := row.ticket_hash,
               approved_at := now }, st')
      ∧ (st'.findTicket ticket_id).map TicketRow.status = some "approved"
      ∧ st'.approvals.length = st.approvals.length + 1
      ∧ st'.rejections = st.rejections)
    ∧ (st.consistent → ∀ now rcd st',
      approve_ticket st ticket_id now = .ok (rcd, st') → ∀ now',
      approve_ticket st' ticket_id now' =
        .error (.conflict ticket_id "approved")) := by
  have hupd : ∀ (x : Store) (ap : List ApprovalRow),
      ({ x with approvals := ap } : Store).findTicket ticket_id
        = x.findTicket ticket_id := fun _ _ => rfl
  refine ⟨?_, ?_, ?_, ?_⟩
  · intro h now reason
    constructor <;> simp [approve_ticket, reject_ticket, h]
  · intro row hrow hne now reason
    constructor <;> simp [approve_ticket, reject_ticket, hrow, hne]
  · intro hcons row hrow hpend now
    have hmem := List.mem_of_find?_eq_some hrow
    have hbeq := List.find?_some hrow
    have hid : row.ticket_id = ticket_id := by simpa using hbeq
    have hfnone := hcons row hmem hpend
    rw [hid] at hfnone
    refine ⟨approvedStore st ticket_id row.ticket_hash now, ?_, ?_, ?_, ?_⟩
    · simp only [approve_ticket, hrow]
      rw [if_neg (by simp [hpend]), hfnone]
      rfl
    · rw [show (approvedStore st ticket_id row.ticket_hash now).findTicket
          ticket_id = (st.setStatus ticket_id "approved").findTicket ticket_id
          from rfl, findTicket_setStatus, hrow]
      simp [hid]
    · simp [approvedStore, Store.setStatus]
    · simp [approvedStore, Store.setStatus]
  · intro hcons now rcd st' happ now'
    cases hfind : st.findTicket ticket_id with
    | none =>
      simp only [approve_ticket, hfind] at happ
      exact absurd happ (by simp)
    | some row =>
      by_cases hpend : row.status = "pending"
      · have hmem := List.mem_of_find?_eq_some hfind
        have hbeq := List.find?_some hfind
        have hid : row.ticket_id = ticket_id := by simpa using hbeq
        have hfnone := hcons row hmem hpend
        rw [hid] at hfnone
        have happ2 : approve_ticket st ticket_id now =
            .ok ({ ticket_id := ticket_id, ticket_hash := row.ticket_hash,
                   approved_at := now },
                 approvedStore st ticket_id row.ticket_hash now) := by
          simp only [approve_ticket, hfind]
          rw [if_neg (by simp [hpend]), hfnone]
          rfl
        rw [happ2] at happ
        simp only [Except.ok.injEq, Prod.mk.injEq] at happ
        obtain ⟨-, hst'⟩ := happ
        subst hst'
        simp only [approve_ticket]
        rw [show (approvedStore st ticket_id row.ticket_hash now).findTicket
            ticket_id = (st.setStatus ticket_id "approved").findTicket ticket_id
            from rfl, findTicket_setStatus, hfind]
        simp [hid]
      · simp only [approve_ticket, hfind] at happ
        rw [if_pos hpend] at happ
        exact absurd happ (by simp)

/-- Witness for C2: on a concrete one-pending-ticket store, approving
succeeds, flips the status and appends exactly one audit row. -/
theorem ticket_store_transitions_witness :
    ∃ st', approve_ticket exampleStore "T1" "t1" =
        .ok ({ ticket_id := "T1", ticket_hash := "h1", approved_at := "t1" }, st')
      ∧ (st'.findTicket "T1").map TicketRow.status = some "approved"
      ∧ st'.approvals.length = exampleStore.approvals.length + 1
      ∧ st'.rejections = exampleStore.rejections :=
  (ticket_store_transitions exampleStore "T1").2.2.1
    (fun _ _ _ => rfl)
    { ticket_id := "T1", ticket_hash := "h1", symbol := "SPY",
      strategy := "SPY_IRON_CONDOR", payload := "{}", status := "pending",
      created_at := "t0" }
    rfl rfl "t1"

/-- C3: put-call parity, exact over real arithmetic: for all S, K, T, σ
positive, any r and any q ≥ 0, the call price minus the put price equals
`S·e^(−qT) − K·e^(−rT)`. -/
theorem put_call_parity (S K T r sigma q : ℝ)
    (hS : 0 < S) (hK : 0 < K) (hT : 0 < T) (hsigma : 0 < sigma)
    (hq : 0 ≤ q) :
    black_scholes_price S K T r sigma "call" q
      - black_scholes_price S K T r sigma "put" q
      = S * Real.exp (-q * T) - K * Real.exp (-r * T) := by
  have hT' : ¬ T ≤ 0 := not_le.mpr hT
  rw [show black_scholes_price S K T r sigma "call" q
      = S * Real.exp (-q * T) * Phi (bs_d1 S K T r sigma q)
        - K * Real.exp (-r * T) * Phi (bs_d2 S K T r sigma q) by
    simp [black_scholes_price, hT']]
  rw [show black_scholes_price S K T r sigma "put" q
      = K * Real.exp (-r * T) * Phi (-(bs_d2 S K T r sigma q))
        - S * Real.exp (-q * T) * Phi (-(bs_d1 S K T r sigma q)) by
    simp [black_scholes_price, hT']]
  have h1 := Phi_add_Phi_neg (bs_d1 S K T r sigma q)
  have h2 := Phi_add_Phi_neg (bs_d2 S K T r sigma q)
  linear_combination (S * Real.exp (-q * T)) * h1
    - (K * Real.exp (-r * T)) * h2

/-- Witness for C3 at S=100, K=105, T=1/2, r=1/20, σ=1/4, q=1/50. -/
theorem put_call_parity_witness :
    black_scholes_price 100 105 (1/2) (1/20) (1/4) "call" (1/50)
      - black_scholes_price 100 105 (1/2) (1/20) (1/4) "put" (1/50)
      = 100 * Real.exp (-(1/50) * (1/2)) - 105 * Real.exp (-(1/20) * (1/2)) :=
  put_call_parity 100 105 (1/2) (1/20) (1/4) (1/50)
    (by norm_num) (by norm_num) (by norm_num) (by norm_num) (by norm_num)

/-- C7: for T > 0 and a positive initial guess,
`calculate_implied_volatility` totalises to at most `max_iterations`
Newton steps and returns a strictly positive σ; within a step, zero raw
vega returns the current σ unchanged, and otherwise σ is updated by
`diff / raw_vega` with a reset to the 0.01 floor whenever the update
would make it non-positive. -/
theorem implied_volatility_safety (market_price S K T r : ℝ)
    (option_type : String) (q initial_guess tolerance : ℝ)
    (max_iterations : ℕ) (hT : 0 < T) (hguess : 0 < initial_guess) :
    0 < calculate_implied_volatility market_price S K T r option_type q
        initial_guess tolerance max_iterations
    ∧ (∀ (n : ℕ) (sigma : ℝ), raw_vega_at S K T r sigma q = 0 →
      ivLoop market_price S K T r option_type q tolerance (n + 1) sigma
        = sigma)
    ∧ (∀ (n : ℕ) (sigma : ℝ),
      ¬ |market_price - black_scholes_price S K T r sigma option_type q|
          < tolerance →
      raw_vega_at S K T r sigma q ≠ 0 →
      ivLoop market_price S K T r option_type q tolerance (n + 1) sigma
        = ivLoop market_price S K T r option_type q tolerance n
          (if sigma + (market_price
                - black_scholes_price S K T r sigma option_type q)
                / raw_vega_at S K T r sigma q ≤ 0
            then 0.01
            else sigma + (market_price
                - black_scholes_price S K T r sigma option_type q)
                / raw_vega_at S K T r sigma q)) := by
  refine ⟨?_, ?_, ?_⟩
  · have key : ∀ (n : ℕ) (sigma : ℝ), 0 < sigma →
        0 < ivLoop market_price S K T r option_type q tolerance n sigma := by
      intro n
      induction n with
      | zero => intro s hs; simpa [ivLoop] using hs
      | succ n ih =>
        intro s hs
        rw [ivLoop]
        split_ifs with h1 h2
        · exact hs
        · exact hs
        · apply ih
          split_ifs with h3
          · norm_num
          · exact not_le.mp h3
    exact key max_iterations initial_guess hguess
  · intro n sigma hv
    rw [ivLoop]
    rw [if_pos hv]
    split_ifs <;> rfl
  · intro n sigma htol hv
    rw [ivLoop]
    rw [if_neg htol, if_neg hv]

/-- Witness for C7: from the default initial guess 0.3 the solver output
is strictly positive at a concrete expired-market input. -/
theorem implied_volatility_safety_witness :
    0 < calculate_implied_volatility 5 100 100 1 (1/20) "call" 0 (3/10)
        (1/10000) 100 :=
  (implied_volatility_safety 5 100 100 1 (1/20) "call" 0 (3/10) (1/10000) 100
    (by norm_num) (by norm_num)).1

/-- C1: at the expired in-the-money put S=90, K=100, T=0 the code returns
the correct intrinsic price 10 and zero for all the higher-order Greeks,
but its delta is 0 — not the −1 the claim (and the specification's
`delta ∈ {−1, 0}` invariant for puts) requires, because the `T ≤ 0`
branch computes `1.0 if (option_type == 'call' and S > K) else 0.0` and
therefore can never produce −1 for a put. -/
theorem expired_itm_put_delta_is_zero_not_neg_one :
    (calculate_greeks 90 100 0 0.25 0.05 "put" 0).price = 10
    ∧ (calculate_greeks 90 100 0 0.25 0.05 "put" 0).delta = 0
    ∧ (calculate_greeks 90 100 0 0.25 0.05 "put" 0).delta ≠ -1
    ∧ (calculate_greeks 90 100 0 0.25 0.05 "put" 0).gamma = 0
    ∧ (calculate_greeks 90 100 0 0.25 0.05 "put" 0).vega_per_1pct = 0
    ∧ (calculate_greeks 90 100 0 0.25 0.05 "put" 0).theta = 0
    ∧ (calculate_greeks 90 100 0 0.25 0.05 "put" 0).rho_per_1pct = 0 := by
  have h0 : (calculate_greeks 90 100 0 0.25 0.05 "put" 0) =
      { price := max ((100 : ℝ) - 90) 0, delta := 0, gamma := 0
        vega_per_1pct := 0, theta := 0, rho_per_1pct := 0
        implied_volatility := none } := by
    rw [calculate_greeks, if_pos le_rfl]
    norm_num
    decide
  rw [h0]
  norm_num

end Tradeai
